import Mathlib

/-!
# Floating IP lifecycle of the OpenStack provider: `pkg/cloud/services/networking/floatingip.go`

A shallow embedding of `GetOrCreateFloatingIP`, `checkIfFloatingIPExists`,
`DeleteFloatingIP`, `backoff` and `AssociateFloatingIP`.

The remote networking service is a state machine over an arbitrary state type `σ`;
every operation threads the remote state explicitly and returns, next to its Go
return value, the chronological list of interactions it performed (remote calls
with their responses, audit events, log lines).  Wall-clock time is not modelled:
the sleeps between polls leave no entry in that list.
-/

set_option linter.dupNamespace false

namespace Networking

/-! ## Data model -/

/-- The remote entity `floatingips.FloatingIP` (the attributes the service reads). -/
structure FloatingIP where
  ID : String
  FloatingIP : String
  FloatingNetworkID : String
  PortID : String
  Status : String
deriving DecidableEq, Repr

/-- The filter `floatingips.ListOpts`; the code only ever sets `FloatingIP`. -/
structure ListOpts where
  FloatingIP : String
deriving DecidableEq, Repr

/-- The request `floatingips.CreateOpts`; both fields are Go strings, whose zero value is `""`. -/
structure CreateOpts where
  FloatingNetworkID : String
  FloatingIP : String
deriving DecidableEq, Repr

/-- The request `floatingips.UpdateOpts`; `PortID` is a `*string`. -/
structure UpdateOpts where
  PortID : Option String
deriving DecidableEq, Repr

/-- The part of `infrav1.Network` the code reads. -/
structure Network where
  ID : String
deriving DecidableEq, Repr

/-- The part of `infrav1.OpenStackClusterStatus` the code reads. -/
structure OpenStackClusterStatus where
  ExternalNetwork : Network
deriving DecidableEq, Repr

/-- The part of `infrav1.OpenStackCluster` the code reads: `Status.ExternalNetwork.ID`. -/
structure OpenStackCluster where
  Status : OpenStackClusterStatus
deriving DecidableEq, Repr

/-- An error value handed back by a call to the remote service. -/
structure RemoteError where
  msg : String
deriving DecidableEq, Repr

/-- Go `error` values that the operations of this file can return. -/
inductive GoError where
  /-- An error of a remote call, passed on as it is -/
  | remote (e : RemoteError)
  /-- A fresh error built by `fmt.Errorf` with the given text -/
  | errorf (text : String)
  /-- The sentinel `wait.ErrWaitTimeout` -/
  | ErrWaitTimeout
deriving DecidableEq, Repr

/-- The method `Error()` of an error value. -/
def GoError.Error : GoError → String
  | .remote e => e.msg
  | .errorf text => text
  | .ErrWaitTimeout => "timed out waiting for the condition"

/-- One interaction of the service with a collaborator, with the response where there is one. -/
inductive Call where
  | List (opts : ListOpts) (res : Except RemoteError (List FloatingIP))
  | Create (opts : CreateOpts) (res : Except RemoteError FloatingIP)
  | Update (id : String) (opts : UpdateOpts) (res : Except RemoteError FloatingIP)
  | Get (id : String) (res : Except RemoteError FloatingIP)
  | Delete (id : String) (res : Option RemoteError)
  /-- The call `record.Eventf(object, reason, message)` with the message already formatted -/
  | Eventf (object : OpenStackCluster) (reason : String) (message : String)
  /-- The call `logger.Info(msg, keysAndValues...)` -/
  | Info (msg : String) (keysAndValues : List String)

/-- Is this interaction a `floatingips.List` request? -/
def Call.isList : Call → Bool
  | .List _ _ => true
  | _ => false

/-- Is this interaction a `floatingips.Create` request? -/
def Call.isCreate : Call → Bool
  | .Create _ _ => true
  | _ => false

/-- Is this interaction a `floatingips.Get` request? -/
def Call.isGet : Call → Bool
  | .Get _ _ => true
  | _ => false

/-- Is this interaction a `floatingips.Delete` request? -/
def Call.isDelete : Call → Bool
  | .Delete _ _ => true
  | _ => false

/-- Is this interaction an audit event? -/
def Call.isEventf : Call → Bool
  | .Eventf _ _ _ => true
  | _ => false

/-- The remote floating IP service behind `s.client`, as a state machine on `σ`.
`List` stands for `floatingips.List(..).AllPages()` followed by
`floatingips.ExtractFloatingIPs`: either step may fail and the code returns
`nil, err` in both cases. -/
structure Client (σ : Type) where
  Create : σ → CreateOpts → Except RemoteError FloatingIP × σ
  Update : σ → String → UpdateOpts → Except RemoteError FloatingIP × σ
  Get : σ → String → Except RemoteError FloatingIP × σ
  Delete : σ → String → Option RemoteError × σ
  List : σ → ListOpts → Except RemoteError (List FloatingIP) × σ

/-- What an operation leaves behind: its Go return value, the remote state, and the
interactions it performed, oldest first. -/
structure Outcome (σ : Type) (α : Type) where
  ret : α
  remote : σ
  calls : List Call

/-- The configuration `wait.Backoff`. `Duration` is in nanoseconds. -/
structure Backoff where
  Steps : Nat
  Duration : Nat
  Factor : ℚ
  Jitter : ℚ

/-- The constant `time.Second`, in nanoseconds. -/
def Second : Nat := 1000000000

/-! ## Operations -/

/-- The function `checkIfFloatingIPExists(client, ip)`: list by address, first entry or nil. -/
def checkIfFloatingIPExists {σ : Type} (client : Client σ) (ip : String) (st : σ) :
    Outcome σ (Option FloatingIP × Option GoError) :=
  let r := client.List st { FloatingIP := ip }
  let calls := [Call.List { FloatingIP := ip } r.1]
  match r.1 with
  | .error err => ⟨(none, some (.remote err)), r.2, calls⟩
  | .ok fpList =>
    match fpList with
    | [] => ⟨(none, none), r.2, calls⟩
    | fp :: _ => ⟨(some fp, none), r.2, calls⟩

/-- The method `(s *Service) GetOrCreateFloatingIP(openStackCluster, ip)`. -/
def GetOrCreateFloatingIP {σ : Type} (s : Client σ) (openStackCluster : OpenStackCluster)
    (ip : String) (st : σ) : Outcome σ (Option FloatingIP × Option GoError) :=
  -- var fp *floatingips.FloatingIP; var err error
  let found : Outcome σ (Option FloatingIP × Option GoError) :=
    if ip ≠ "" then checkIfFloatingIPExists s ip st else ⟨(none, none), st, []⟩
  match found.ret.2 with
  | some err => ⟨(none, some err), found.remote, found.calls⟩
  | none =>
    match found.ret.1 with
    | some fp => ⟨(some fp, none), found.remote, found.calls⟩
    | none =>
      let fpCreateOpts : CreateOpts :=
        { FloatingNetworkID := openStackCluster.Status.ExternalNetwork.ID, FloatingIP := "" }
      let fpCreateOpts : CreateOpts :=
        if ip ≠ "" then { fpCreateOpts with FloatingIP := ip } else fpCreateOpts
      let r := s.Create found.remote fpCreateOpts
      match r.1 with
      | .error err =>
        ⟨(none, some (.errorf ("error creating floating IP: " ++ err.msg))), r.2,
          found.calls ++ [Call.Create fpCreateOpts r.1]⟩
      | .ok fp =>
        ⟨(some fp, none), r.2,
          found.calls ++ [Call.Create fpCreateOpts r.1,
            Call.Eventf openStackCluster "SuccessfulCreateFloatingIP"
              ("Created floating IP " ++ fp.FloatingIP ++ " with id " ++ fp.ID)]⟩

/-- The method `(s *Service) DeleteFloatingIP(ip)`: no test of `ip` precedes the lookup. -/
def DeleteFloatingIP {σ : Type} (s : Client σ) (ip : String) (st : σ) :
    Outcome σ (Option GoError) :=
  let found := checkIfFloatingIPExists s ip st
  match found.ret.2 with
  | some err => ⟨some err, found.remote, found.calls⟩
  | none =>
    match found.ret.1 with
    | some fip =>
      let r := s.Delete found.remote fip.ID
      ⟨r.1.map GoError.remote, r.2, found.calls ++ [Call.Delete fip.ID r.1]⟩
    | none => ⟨none, found.remote, found.calls⟩

/-- The package variable `backoff`. -/
def backoff : Backoff :=
  { Steps := 10, Duration := 30 * Second, Factor := 1, Jitter := 1 / 10 }

/-- Modelled from the spec: `wait.ExponentialBackoff` of `k8s.io/apimachinery` is a
dependency whose code is not among the sources.  Following §4.3: a bounded number of
attempts; on each attempt the condition runs; a condition error ends the wait with
that error, a true condition ends it with success, otherwise the wait goes on to the
next attempt; when the attempts are used up the result is `wait.ErrWaitTimeout`.
The first argument is the number of attempts left (`backoff.Steps`). -/
def ExponentialBackoffLoop {σ : Type} (condition : σ → Outcome σ (Bool × Option GoError)) :
    Nat → σ → Outcome σ (Option GoError)
  | 0, st => ⟨some .ErrWaitTimeout, st, []⟩
  | steps + 1, st =>
    let c := condition st
    if c.ret.2.isSome || c.ret.1 then
      ⟨c.ret.2, c.remote, c.calls⟩
    else
      let rest := ExponentialBackoffLoop condition steps c.remote
      ⟨rest.ret, rest.remote, c.calls ++ rest.calls⟩

/-- Modelled from the spec: `wait.ExponentialBackoff(backoff, condition)`, the attempts
being bounded by `backoff.Steps`; the delays (`Duration`, `Factor`, `Jitter`) only set
how long the caller sleeps between two attempts. -/
def ExponentialBackoff {σ : Type} (b : Backoff)
    (condition : σ → Outcome σ (Bool × Option GoError)) (st : σ) : Outcome σ (Option GoError) :=
  ExponentialBackoffLoop condition b.Steps st

/-- The closure handed to `wait.ExponentialBackoff` in `AssociateFloatingIP`
(lines 104-110): fetch the floating IP `id`, fail on a fetch error, otherwise report
whether its status is `"ACTIVE"`. -/
def associateCondition {σ : Type} (s : Client σ) (id : String) (st : σ) :
    Outcome σ (Bool × Option GoError) :=
  let r := s.Get st id
  match r.1 with
  | .error err => ⟨(false, some (.remote err)), r.2, [Call.Get id r.1]⟩
  | .ok fp => ⟨(decide (fp.Status = "ACTIVE"), none), r.2, [Call.Get id r.1]⟩

/-- The method `(s *Service) AssociateFloatingIP(fp, portID)`. After a successful update the
variable `fp` holds the floating IP that `Update` returned, and the polls fetch its `ID`. -/
def AssociateFloatingIP {σ : Type} (s : Client σ) (fp : FloatingIP) (portID : String) (st : σ) :
    Outcome σ (Option GoError) :=
  let log1 := Call.Info "Associating floating IP" ["IP", fp.FloatingIP]
  let fpUpdateOpts : UpdateOpts := { PortID := some portID }
  let r := s.Update st fp.ID fpUpdateOpts
  match r.1 with
  | .error err =>
    ⟨some (.errorf ("error associating floating IP: " ++ err.msg)), r.2,
      [log1, Call.Update fp.ID fpUpdateOpts r.1]⟩
  | .ok fp1 =>
    let log2 := Call.Info "Waiting for floatingIP" ["id", fp1.ID, "targetStatus", "ACTIVE"]
    let w := ExponentialBackoff backoff (associateCondition s fp1.ID) r.2
    ⟨w.ret, w.remote, [log1, Call.Update fp.ID fpUpdateOpts r.1, log2] ++ w.calls⟩

/-- The body field `floating_ip_address` of a create request. The declaration of
`floatingips.CreateOpts` (gophercloud) is not among the sources; its field carries the
tag `omitempty`, so a field left at the zero value is left out of the body. -/
def CreateOpts.bodyAddress (o : CreateOpts) : Option String :=
  if o.FloatingIP = "" then none else some o.FloatingIP

/-! ## Polling vocabulary

The remote state and the responses seen by consecutive `Get` requests for one
identifier, used to say what a remote does "on poll k". -/

/-- The remote state after `k` consecutive `Get` requests for `id`, starting in `st`. -/
def afterGets {σ : Type} (s : Client σ) (id : String) : Nat → σ → σ
  | 0, st => st
  | k + 1, st => afterGets s id k (s.Get st id).2

/-- The response to poll number `k + 1` (so `poll .. 0` is the first poll) in a run of
consecutive `Get` requests for `id` that starts in `st`. -/
def poll {σ : Type} (s : Client σ) (id : String) (st : σ) (k : Nat) :
    Except RemoteError FloatingIP :=
  (s.Get (afterGets s id k st) id).1

/-- The first `n` polls for `id` from `st`, as interactions. -/
def pollCalls {σ : Type} (s : Client σ) (id : String) (st : σ) (n : Nat) : List Call :=
  (List.range n).map (fun k => Call.Get id (poll s id st k))

/-! ## A test double of the remote service -/

/-- State of the test double: the floating IPs it holds and the number of `Get`
requests it has served. -/
structure FakeRemote where
  fips : List FloatingIP
  gets : Nat
deriving DecidableEq, Repr

/-- Behaviour of the test double: whether `Create` and `Update` fail, and what the
`Get` request number `k` (from 0) answers, an error or a status. -/
structure FakeScript where
  createError : Option RemoteError
  updateError : Option RemoteError
  getStatus : Nat → Except RemoteError String

/-- An in-memory remote. `List` with an empty address filter returns every floating IP,
as a query without that filter does; `Create` assigns the identifier `"fip-new"` and,
when no address is asked for, the address `"172.24.4.9"`. -/
def fakeClient (script : FakeScript) : Client FakeRemote where
  List st opts :=
    (.ok (st.fips.filter
      (fun f => decide (opts.FloatingIP = "") || decide (f.FloatingIP = opts.FloatingIP))), st)
  Create st opts :=
    match script.createError with
    | some e => (.error e, st)
    | none =>
      let f : FloatingIP :=
        { ID := "fip-new"
          FloatingIP := if opts.FloatingIP = "" then "172.24.4.9" else opts.FloatingIP
          FloatingNetworkID := opts.FloatingNetworkID
          PortID := ""
          Status := "DOWN" }
      (.ok f, { st with fips := st.fips ++ [f] })
  Update st id opts :=
    match script.updateError with
    | some e => (.error e, st)
    | none =>
      match st.fips.find? (fun f => decide (f.ID = id)) with
      | none => (.error ⟨"Resource not found"⟩, st)
      | some f => (.ok { f with PortID := opts.PortID.getD "" }, st)
  Get st id :=
    match script.getStatus st.gets with
    | .error e => (.error e, { st with gets := st.gets + 1 })
    | .ok status =>
      (.ok { ID := id, FloatingIP := "", FloatingNetworkID := "", PortID := "", Status := status },
        { st with gets := st.gets + 1 })
  Delete st id := (none, { st with fips := st.fips.filter (fun f => decide (f.ID ≠ id)) })

/-- A floating IP held by the test double. -/
def fipA : FloatingIP :=
  { ID := "fip-a", FloatingIP := "10.0.0.7", FloatingNetworkID := "ext-net", PortID := "",
    Status := "DOWN" }

/-- A second floating IP held by the test double. -/
def fipB : FloatingIP :=
  { ID := "fip-b", FloatingIP := "10.0.0.8", FloatingNetworkID := "ext-net", PortID := "",
    Status := "DOWN" }

/-- A cluster whose external network is `"ext-net"`. -/
def clusterA : OpenStackCluster := { Status := { ExternalNetwork := { ID := "ext-net" } } }

/-- A script in which every request succeeds and the `Get` number `k` (from 0) answers
`"ACTIVE"` from `activeFrom` on and `"DOWN"` before. -/
def okScript (activeFrom : Nat) : FakeScript :=
  { createError := none, updateError := none,
    getStatus := fun k => if activeFrom ≤ k then .ok "ACTIVE" else .ok "DOWN" }

/-- A script in which every `Get` answers `"DOWN"`. -/
def downScript : FakeScript :=
  { createError := none, updateError := none, getStatus := fun _ => .ok "DOWN" }

/-- A script in which the `Get` number `failAt` (from 0) fails and the others answer `"DOWN"`. -/
def getFailsScript (failAt : Nat) : FakeScript :=
  { createError := none, updateError := none,
    getStatus := fun k => if k = failAt then .error ⟨"connection reset"⟩ else .ok "DOWN" }

/-- A script in which `Create` is rejected. -/
def createFailsScript : FakeScript :=
  { createError := some ⟨"Quota exceeded"⟩, updateError := none, getStatus := fun _ => .ok "DOWN" }

/-- A script in which `Update` is rejected. -/
def updateFailsScript : FakeScript :=
  { createError := none, updateError := some ⟨"Port not found"⟩, getStatus := fun _ => .ok "DOWN" }

/-! ## Resolution and creation -/

/-- What `checkIfFloatingIPExists` does when the listing succeeds: one `List` request,
and the first entry, or nil for an empty listing. -/
theorem checkIfFloatingIPExists_ok {σ : Type} (client : Client σ) (ip : String) (st st1 : σ)
    (fpList : List FloatingIP) (hList : client.List st { FloatingIP := ip } = (.ok fpList, st1)) :
    checkIfFloatingIPExists client ip st
      = ⟨(fpList.head?, none), st1, [Call.List { FloatingIP := ip } (.ok fpList)]⟩ := by
  unfold checkIfFloatingIPExists
  rw [hList]
  cases fpList <;> rfl

/-- What `checkIfFloatingIPExists` does when the listing fails: one `List` request, and
the error of the listing as it is. -/
theorem checkIfFloatingIPExists_error {σ : Type} (client : Client σ) (ip : String) (st st1 : σ)
    (e : RemoteError) (hList : client.List st { FloatingIP := ip } = (.error e, st1)) :
    checkIfFloatingIPExists client ip st
      = ⟨(none, some (.remote e)), st1, [Call.List { FloatingIP := ip } (.error e)]⟩ := by
  unfold checkIfFloatingIPExists
  rw [hList]

/-- Claim C1: for a non-empty address whose filtered listing succeeds with the entries
`E :: rest`, `GetOrCreateFloatingIP` returns `E` and no error, and its only interaction
is that `List` request: no `Create` request and no audit event. -/
theorem getOrCreate_returns_first_listed {σ : Type} (s : Client σ)
    (openStackCluster : OpenStackCluster) (A : String) (st st1 : σ) (E : FloatingIP)
    (rest : List FloatingIP) (hA : A ≠ "")
    (hList : s.List st { FloatingIP := A } = (.ok (E :: rest), st1)) :
    (GetOrCreateFloatingIP s openStackCluster A st).ret = (some E, none)
    ∧ (GetOrCreateFloatingIP s openStackCluster A st).calls
        = [Call.List { FloatingIP := A } (.ok (E :: rest))]
    ∧ (GetOrCreateFloatingIP s openStackCluster A st).calls.countP Call.isCreate = 0
    ∧ (GetOrCreateFloatingIP s openStackCluster A st).calls.countP Call.isEventf = 0
    ∧ (GetOrCreateFloatingIP s openStackCluster A st).remote = st1 := by
  have h : GetOrCreateFloatingIP s openStackCluster A st
      = ⟨(some E, none), st1, [Call.List { FloatingIP := A } (.ok (E :: rest))]⟩ := by
    unfold GetOrCreateFloatingIP
    simp only [hA, ne_eq, not_false_eq_true, if_true,
      checkIfFloatingIPExists_ok s A st st1 (E :: rest) hList, List.head?_cons]
  rw [h]
  exact ⟨rfl, rfl, rfl, rfl, rfl⟩

/-- Witness of C1: the test double holds `fipA` at `10.0.0.7`; asking for that address
returns `fipA` after a single `List` request. -/
theorem getOrCreate_returns_first_listed_witness :
    (GetOrCreateFloatingIP (fakeClient downScript) clusterA "10.0.0.7" ⟨[fipA, fipB], 0⟩).ret
        = (some fipA, none)
    ∧ (GetOrCreateFloatingIP (fakeClient downScript) clusterA "10.0.0.7" ⟨[fipA, fipB], 0⟩).calls
        = [Call.List { FloatingIP := "10.0.0.7" } (.ok [fipA])]
    ∧ (GetOrCreateFloatingIP (fakeClient downScript) clusterA "10.0.0.7"
        ⟨[fipA, fipB], 0⟩).calls.countP Call.isCreate = 0
    ∧ (GetOrCreateFloatingIP (fakeClient downScript) clusterA "10.0.0.7"
        ⟨[fipA, fipB], 0⟩).calls.countP Call.isEventf = 0
    ∧ (GetOrCreateFloatingIP (fakeClient downScript) clusterA "10.0.0.7"
        ⟨[fipA, fipB], 0⟩).remote = ⟨[fipA, fipB], 0⟩ :=
  getOrCreate_returns_first_listed (fakeClient downScript) clusterA "10.0.0.7"
    ⟨[fipA, fipB], 0⟩ ⟨[fipA, fipB], 0⟩ fipA [] (by decide) rfl

/-- Claim C2: for a non-empty address `A` whose filtered listing succeeds with no entry,
`checkIfFloatingIPExists` returns nil and no error, and `GetOrCreateFloatingIP` issues the
`List` request followed by exactly one `Create` request, for the external network of the
cluster and with the address field set to `A`; when that `Create` succeeds with `fp`, the
operation returns `fp` and no error. -/
theorem getOrCreate_creates_pinned_when_absent {σ : Type} (s : Client σ)
    (openStackCluster : OpenStackCluster) (A : String) (st st1 : σ) (hA : A ≠ "")
    (hList : s.List st { FloatingIP := A } = (.ok [], st1)) :
    (checkIfFloatingIPExists s A st).ret = (none, none)
    ∧ (GetOrCreateFloatingIP s openStackCluster A st).calls.filter Call.isCreate
        = [Call.Create
            { FloatingNetworkID := openStackCluster.Status.ExternalNetwork.ID, FloatingIP := A }
            (s.Create st1
              { FloatingNetworkID := openStackCluster.Status.ExternalNetwork.ID,
                FloatingIP := A }).1]
    ∧ (GetOrCreateFloatingIP s openStackCluster A st).calls.take 2
        = [Call.List { FloatingIP := A } (.ok []),
           Call.Create
            { FloatingNetworkID := openStackCluster.Status.ExternalNetwork.ID, FloatingIP := A }
            (s.Create st1
              { FloatingNetworkID := openStackCluster.Status.ExternalNetwork.ID,
                FloatingIP := A }).1]
    ∧ (GetOrCreateFloatingIP s openStackCluster A st).calls.countP Call.isList = 1
    ∧ (∀ fp : FloatingIP,
        (s.Create st1
          { FloatingNetworkID := openStackCluster.Status.ExternalNetwork.ID,
            FloatingIP := A }).1 = .ok fp →
        (GetOrCreateFloatingIP s openStackCluster A st).ret = (some fp, none)) := by
  have hc := checkIfFloatingIPExists_ok s A st st1 [] hList
  refine ⟨by rw [hc]; rfl, ?_⟩
  unfold GetOrCreateFloatingIP
  simp only [hA, ne_eq, not_false_eq_true, if_true, hc, List.head?_nil]
  cases hcr : (s.Create st1
      { FloatingNetworkID := openStackCluster.Status.ExternalNetwork.ID, FloatingIP := A }).1 with
  | error e => simp [Call.isCreate, Call.isList, List.filter]
  | ok fp => simp [Call.isCreate, Call.isList, List.filter]

/-- Witness of C2: the test double holds no floating IP at `10.0.0.9`; asking for that
address lists, then creates once, pinned to `10.0.0.9` on `ext-net`. -/
theorem getOrCreate_creates_pinned_when_absent_witness :
    (GetOrCreateFloatingIP (fakeClient downScript) clusterA "10.0.0.9" ⟨[fipA], 0⟩).calls.take 2
      = [Call.List { FloatingIP := "10.0.0.9" } (.ok []),
         Call.Create { FloatingNetworkID := "ext-net", FloatingIP := "10.0.0.9" }
          (.ok { ID := "fip-new", FloatingIP := "10.0.0.9", FloatingNetworkID := "ext-net",
                 PortID := "", Status := "DOWN" })]
    ∧ (GetOrCreateFloatingIP (fakeClient downScript) clusterA "10.0.0.9" ⟨[fipA], 0⟩).ret
      = (some { ID := "fip-new", FloatingIP := "10.0.0.9", FloatingNetworkID := "ext-net",
                PortID := "", Status := "DOWN" }, none) :=
  have h := getOrCreate_creates_pinned_when_absent (fakeClient downScript) clusterA "10.0.0.9"
    ⟨[fipA], 0⟩ ⟨[fipA], 0⟩ (by decide) rfl
  ⟨h.2.2.1, h.2.2.2.2 _ rfl⟩

/-- Every interaction of `GetOrCreateFloatingIP`, by cases on the lookup and on the
`Create` response: the shape used to read off counts of requests and events. -/
theorem getOrCreate_shape {σ : Type} (s : Client σ) (openStackCluster : OpenStackCluster)
    (ip : String) (st : σ) :
    (∃ pre : List Call, (∀ c ∈ pre, c.isCreate = false ∧ c.isEventf = false)
      ∧ (((GetOrCreateFloatingIP s openStackCluster ip st).calls = pre
            ∧ ∀ o e, (GetOrCreateFloatingIP s openStackCluster ip st).ret
                ≠ (o, some (.errorf e)))
        ∨ (∃ opts e, (GetOrCreateFloatingIP s openStackCluster ip st).calls
              = pre ++ [Call.Create opts (.error e)]
            ∧ (GetOrCreateFloatingIP s openStackCluster ip st).ret
              = (none, some (.errorf ("error creating floating IP: " ++ e.msg))))
        ∨ (∃ opts fp, (GetOrCreateFloatingIP s openStackCluster ip st).calls
              = pre ++ [Call.Create opts (.ok fp),
                  Call.Eventf openStackCluster "SuccessfulCreateFloatingIP"
                    ("Created floating IP " ++ fp.FloatingIP ++ " with id " ++ fp.ID)]
            ∧ (GetOrCreateFloatingIP s openStackCluster ip st).ret = (some fp, none)))) := by
  unfold GetOrCreateFloatingIP
  by_cases hip : ip = ""
  · subst hip
    refine ⟨[], by simp, ?_⟩
    simp only [ne_eq, not_true_eq_false, if_false, List.nil_append]
    cases hcr : (s.Create st
        { FloatingNetworkID := openStackCluster.Status.ExternalNetwork.ID, FloatingIP := "" }).1 with
    | error e => exact Or.inr (Or.inl ⟨_, e, rfl, rfl⟩)
    | ok fp => exact Or.inr (Or.inr ⟨_, fp, rfl, rfl⟩)
  · refine ⟨[Call.List { FloatingIP := ip } (s.List st { FloatingIP := ip }).1],
      by simp [Call.isCreate, Call.isEventf], ?_⟩
    simp only [hip, ne_eq, not_false_eq_true, if_true]
    rcases hl : s.List st { FloatingIP := ip } with ⟨res, st1⟩
    cases res with
    | error e =>
      rw [checkIfFloatingIPExists_error s ip st st1 e hl]
      exact Or.inl ⟨rfl, by intro o t h; cases h⟩
    | ok fpList =>
      rw [checkIfFloatingIPExists_ok s ip st st1 fpList hl]
      cases fpList with
      | cons fp tl => exact Or.inl ⟨rfl, by intro o t h; cases h⟩
      | nil =>
        simp only [List.head?_nil]
        cases hcr : (s.Create st1
            { FloatingNetworkID := openStackCluster.Status.ExternalNetwork.ID,
              FloatingIP := ip }).1 with
        | error e => exact Or.inr (Or.inl ⟨_, e, rfl, rfl⟩)
        | ok fp => exact Or.inr (Or.inr ⟨_, fp, rfl, rfl⟩)

/-- Claim C9: in any run of `GetOrCreateFloatingIP`, a `Create` request answered with the
remote error `e` is the only `Create` request of the run, the run returns no floating IP
and an error whose text is `"error creating floating IP: "` followed by the text of `e`,
and it emits no audit event; and any audit event of a run comes with a `Create` request of
that run that succeeded with some `fp`, carries the address and identifier of `fp`, and
the run returns `fp`. -/
theorem getOrCreate_create_failure_wrapped {σ : Type} (s : Client σ)
    (openStackCluster : OpenStackCluster) (ip : String) (st : σ) :
    (∀ opts e, Call.Create opts (.error e) ∈ (GetOrCreateFloatingIP s openStackCluster ip st).calls →
      (GetOrCreateFloatingIP s openStackCluster ip st).calls.countP Call.isCreate = 1
      ∧ (GetOrCreateFloatingIP s openStackCluster ip st).ret.1 = none
      ∧ (GetOrCreateFloatingIP s openStackCluster ip st).ret.2.map GoError.Error
          = some ("error creating floating IP: " ++ e.msg)
      ∧ (GetOrCreateFloatingIP s openStackCluster ip st).calls.countP Call.isEventf = 0)
    ∧ (∀ object reason message,
        Call.Eventf object reason message ∈ (GetOrCreateFloatingIP s openStackCluster ip st).calls →
        ∃ opts fp,
          Call.Create opts (.ok fp) ∈ (GetOrCreateFloatingIP s openStackCluster ip st).calls
          ∧ message = "Created floating IP " ++ fp.FloatingIP ++ " with id " ++ fp.ID
          ∧ (GetOrCreateFloatingIP s openStackCluster ip st).ret = (some fp, none)) := by
  obtain ⟨pre, hpre, h⟩ := getOrCreate_shape s openStackCluster ip st
  have hc : pre.countP Call.isCreate = 0 :=
    List.countP_eq_zero.mpr (fun c hcm => by simp [(hpre c hcm).1])
  have hv : pre.countP Call.isEventf = 0 :=
    List.countP_eq_zero.mpr (fun c hcm => by simp [(hpre c hcm).2])
  rcases h with ⟨h1, _⟩ | ⟨o, e1, h1, h2⟩ | ⟨o, fp, h1, h2⟩
  · constructor
    · intro opts e hm
      rw [h1] at hm
      have := (hpre _ hm).1
      simp [Call.isCreate] at this
    · intro object reason message hm
      rw [h1] at hm
      have := (hpre _ hm).2
      simp [Call.isEventf] at this
  · constructor
    · intro opts e hm
      rw [h1] at hm ⊢
      rw [h2]
      rcases List.mem_append.mp hm with hm | hm
      · have := (hpre _ hm).1
        simp [Call.isCreate] at this
      · simp only [List.mem_singleton, Call.Create.injEq, Except.error.injEq] at hm
        obtain ⟨_, rfl⟩ := hm
        simp [List.countP_append, hc, hv, Call.isCreate, Call.isEventf, GoError.Error]
    · intro object reason message hm
      rw [h1] at hm
      rcases List.mem_append.mp hm with hm | hm
      · have := (hpre _ hm).2
        simp [Call.isEventf] at this
      · simp at hm
  · constructor
    · intro opts e hm
      rw [h1] at hm
      rcases List.mem_append.mp hm with hm | hm
      · have := (hpre _ hm).1
        simp [Call.isCreate] at this
      · simp at hm
    · intro object reason message hm
      rw [h1] at hm ⊢
      rcases List.mem_append.mp hm with hm | hm
      · have := (hpre _ hm).2
        simp [Call.isEventf] at this
      · simp at hm
        exact ⟨o, fp, by simp, hm.2.2, h2⟩

/-- Witness of C9: when the test double rejects `Create` with `"Quota exceeded"`, the run
for the address `10.0.0.9` issues one `Create` request, returns the wrapped error and
emits no event; when it accepts, the event of the run for the empty address goes with a
successful `Create` request. -/
theorem getOrCreate_create_failure_wrapped_witness :
    ((GetOrCreateFloatingIP (fakeClient createFailsScript) clusterA "10.0.0.9"
        ⟨[fipA], 0⟩).calls.countP Call.isCreate = 1
    ∧ (GetOrCreateFloatingIP (fakeClient createFailsScript) clusterA "10.0.0.9" ⟨[fipA], 0⟩).ret.1
        = none
    ∧ (GetOrCreateFloatingIP (fakeClient createFailsScript) clusterA "10.0.0.9"
        ⟨[fipA], 0⟩).ret.2.map GoError.Error
        = some ("error creating floating IP: " ++ "Quota exceeded")
    ∧ (GetOrCreateFloatingIP (fakeClient createFailsScript) clusterA "10.0.0.9"
        ⟨[fipA], 0⟩).calls.countP Call.isEventf = 0)
    ∧ (∃ opts fp,
        Call.Create opts (.ok fp)
          ∈ (GetOrCreateFloatingIP (fakeClient downScript) clusterA "" ⟨[fipA], 0⟩).calls
        ∧ "Created floating IP 172.24.4.9 with id fip-new"
          = "Created floating IP " ++ fp.FloatingIP ++ " with id " ++ fp.ID
        ∧ (GetOrCreateFloatingIP (fakeClient downScript) clusterA "" ⟨[fipA], 0⟩).ret
          = (some fp, none)) :=
  ⟨(getOrCreate_create_failure_wrapped (fakeClient createFailsScript) clusterA "10.0.0.9"
      ⟨[fipA], 0⟩).1
    { FloatingNetworkID := "ext-net", FloatingIP := "10.0.0.9" } ⟨"Quota exceeded"⟩
    (List.Mem.tail _ (List.Mem.head _)),
   (getOrCreate_create_failure_wrapped (fakeClient downScript) clusterA "" ⟨[fipA], 0⟩).2
    clusterA "SuccessfulCreateFloatingIP" "Created floating IP 172.24.4.9 with id fip-new"
    (List.Mem.tail _ (List.Mem.head _))⟩

/-- Claim C10: with the empty address `GetOrCreateFloatingIP` issues no `List` request
and exactly one `Create` request, its first interaction, for the external network of the
cluster; the address field of that request is never assigned (it holds the zero value of
its type), so the request body carries no address. -/
theorem getOrCreate_empty_address_unpinned {σ : Type} (s : Client σ)
    (openStackCluster : OpenStackCluster) (st : σ) :
    (GetOrCreateFloatingIP s openStackCluster "" st).calls.countP Call.isList = 0
    ∧ (GetOrCreateFloatingIP s openStackCluster "" st).calls.filter Call.isCreate
        = [Call.Create
            { FloatingNetworkID := openStackCluster.Status.ExternalNetwork.ID, FloatingIP := "" }
            (s.Create st
              { FloatingNetworkID := openStackCluster.Status.ExternalNetwork.ID,
                FloatingIP := "" }).1]
    ∧ (GetOrCreateFloatingIP s openStackCluster "" st).calls.head?
        = some (Call.Create
            { FloatingNetworkID := openStackCluster.Status.ExternalNetwork.ID, FloatingIP := "" }
            (s.Create st
              { FloatingNetworkID := openStackCluster.Status.ExternalNetwork.ID,
                FloatingIP := "" }).1)
    ∧ CreateOpts.bodyAddress
        { FloatingNetworkID := openStackCluster.Status.ExternalNetwork.ID, FloatingIP := "" }
        = none := by
  unfold GetOrCreateFloatingIP
  simp only [ne_eq, not_true_eq_false, if_false, List.nil_append]
  cases hcr : (s.Create st
      { FloatingNetworkID := openStackCluster.Status.ExternalNetwork.ID, FloatingIP := "" }).1 with
  | error e => simp [Call.isCreate, Call.isList, List.filter, CreateOpts.bodyAddress]
  | ok fp => simp [Call.isCreate, Call.isList, List.filter, CreateOpts.bodyAddress]

/-! ## Deletion -/

/-- Claim C3, evaluated where it fails: on a remote holding `fipA` and `fipB`,
`DeleteFloatingIP("")` issues a `List` request with the empty address filter and then a
`Delete` request for the first floating IP listed, `fipA`, which is gone afterwards. -/
theorem deleteFloatingIP_empty_address_lists_and_deletes :
    (DeleteFloatingIP (fakeClient downScript) "" ⟨[fipA, fipB], 0⟩).calls
      = [Call.List { FloatingIP := "" } (.ok [fipA, fipB]), Call.Delete "fip-a" none]
    ∧ (DeleteFloatingIP (fakeClient downScript) "" ⟨[fipA, fipB], 0⟩).ret = none
    ∧ (DeleteFloatingIP (fakeClient downScript) "" ⟨[fipA, fipB], 0⟩).remote = ⟨[fipB], 0⟩
    ∧ (GetOrCreateFloatingIP (fakeClient downScript) clusterA "" ⟨[fipA, fipB], 0⟩).calls.countP
        Call.isList = 0 :=
  ⟨rfl, rfl, rfl, rfl⟩

/-- Claim C4: when the listing filtered by a non-empty address `A` succeeds with
`fpList`, `DeleteFloatingIP(A)` does the following. For an empty `fpList` it returns
success, its only interaction being the `List` request. For `E :: rest` it issues, after
the `List` request, exactly one `Delete` request, for `E.ID`, and returns what that
request returned: success, or its error as it is. -/
theorem deleteFloatingIP_deletes_resolved_only {σ : Type} (s : Client σ) (A : String)
    (st st1 : σ) (fpList : List FloatingIP) (_hA : A ≠ "")
    (hList : s.List st { FloatingIP := A } = (.ok fpList, st1)) :
    match fpList with
    | [] =>
      (DeleteFloatingIP s A st).ret = none
      ∧ (DeleteFloatingIP s A st).calls = [Call.List { FloatingIP := A } (.ok [])]
      ∧ (DeleteFloatingIP s A st).calls.countP Call.isDelete = 0
    | E :: rest =>
      (DeleteFloatingIP s A st).calls
        = [Call.List { FloatingIP := A } (.ok (E :: rest)), Call.Delete E.ID (s.Delete st1 E.ID).1]
      ∧ (DeleteFloatingIP s A st).calls.countP Call.isDelete = 1
      ∧ ((s.Delete st1 E.ID).1 = none → (DeleteFloatingIP s A st).ret = none)
      ∧ (∀ e, (s.Delete st1 E.ID).1 = some e →
          (DeleteFloatingIP s A st).ret = some (.remote e)) := by
  have hc := checkIfFloatingIPExists_ok s A st st1 fpList hList
  unfold DeleteFloatingIP
  rw [hc]
  cases fpList with
  | nil => simp [Call.isDelete]
  | cons E rest =>
    refine ⟨by simp, by simp [Call.isDelete], ?_, ?_⟩
    · intro h
      simp [h]
    · intro e h
      simp [h]

/-- Witness of C4: on a remote holding `fipA` (at `10.0.0.7`) and `fipB`, releasing
`10.0.0.7` deletes `fip-a` once, and releasing `10.0.0.9`, held by nobody, deletes nothing. -/
theorem deleteFloatingIP_deletes_resolved_only_witness :
    ((DeleteFloatingIP (fakeClient downScript) "10.0.0.7" ⟨[fipA, fipB], 0⟩).calls
        = [Call.List { FloatingIP := "10.0.0.7" } (.ok [fipA]), Call.Delete "fip-a" none]
      ∧ (DeleteFloatingIP (fakeClient downScript) "10.0.0.7" ⟨[fipA, fipB], 0⟩).calls.countP
          Call.isDelete = 1
      ∧ (DeleteFloatingIP (fakeClient downScript) "10.0.0.7" ⟨[fipA, fipB], 0⟩).ret = none)
    ∧ ((DeleteFloatingIP (fakeClient downScript) "10.0.0.9" ⟨[fipA, fipB], 0⟩).ret = none
      ∧ (DeleteFloatingIP (fakeClient downScript) "10.0.0.9" ⟨[fipA, fipB], 0⟩).calls
          = [Call.List { FloatingIP := "10.0.0.9" } (.ok [])]
      ∧ (DeleteFloatingIP (fakeClient downScript) "10.0.0.9" ⟨[fipA, fipB], 0⟩).calls.countP
          Call.isDelete = 0) :=
  have h1 := deleteFloatingIP_deletes_resolved_only (fakeClient downScript) "10.0.0.7"
    ⟨[fipA, fipB], 0⟩ ⟨[fipA, fipB], 0⟩ [fipA] (by decide) rfl
  have h2 := deleteFloatingIP_deletes_resolved_only (fakeClient downScript) "10.0.0.9"
    ⟨[fipA, fipB], 0⟩ ⟨[fipA, fipB], 0⟩ [] (by decide) rfl
  ⟨⟨h1.1, h1.2.1, h1.2.2.1 rfl⟩, h2⟩

/-! ## Association -/

/-- Claim C8: when the `Update` request fails with `e`, `AssociateFloatingIP` has issued
that single `Update` request (for the identifier of the given floating IP, setting the
port to `portID`) after its first log line and nothing else, in particular no `Get`
request, and returns an error whose text is `"error associating floating IP: "` followed
by the text of `e`. -/
theorem associate_update_failure_wrapped {σ : Type} (s : Client σ) (fp : FloatingIP)
    (portID : String) (st st1 : σ) (e : RemoteError)
    (hUpdate : s.Update st fp.ID { PortID := some portID } = (.error e, st1)) :
    (AssociateFloatingIP s fp portID st).calls
      = [Call.Info "Associating floating IP" ["IP", fp.FloatingIP],
         Call.Update fp.ID { PortID := some portID } (.error e)]
    ∧ (AssociateFloatingIP s fp portID st).calls.countP Call.isGet = 0
    ∧ (AssociateFloatingIP s fp portID st).ret
      = some (.errorf ("error associating floating IP: " ++ e.msg))
    ∧ (AssociateFloatingIP s fp portID st).ret.map GoError.Error
      = some ("error associating floating IP: " ++ e.msg)
    ∧ (AssociateFloatingIP s fp portID st).remote = st1 := by
  simp [AssociateFloatingIP, hUpdate, Call.isGet, GoError.Error]

/-- Witness of C8: the test double rejects `Update` with `"Port not found"`. -/
theorem associate_update_failure_wrapped_witness :
    (AssociateFloatingIP (fakeClient updateFailsScript) fipA "port-1" ⟨[fipA], 0⟩).calls
      = [Call.Info "Associating floating IP" ["IP", "10.0.0.7"],
         Call.Update "fip-a" { PortID := some "port-1" } (.error ⟨"Port not found"⟩)]
    ∧ (AssociateFloatingIP (fakeClient updateFailsScript) fipA "port-1" ⟨[fipA], 0⟩).calls.countP
        Call.isGet = 0
    ∧ (AssociateFloatingIP (fakeClient updateFailsScript) fipA "port-1" ⟨[fipA], 0⟩).ret
      = some (.errorf ("error associating floating IP: " ++ "Port not found"))
    ∧ (AssociateFloatingIP (fakeClient updateFailsScript) fipA "port-1" ⟨[fipA], 0⟩).ret.map
        GoError.Error = some ("error associating floating IP: " ++ "Port not found")
    ∧ (AssociateFloatingIP (fakeClient updateFailsScript) fipA "port-1" ⟨[fipA], 0⟩).remote
      = ⟨[fipA], 0⟩ :=
  associate_update_failure_wrapped (fakeClient updateFailsScript) fipA "port-1"
    ⟨[fipA], 0⟩ ⟨[fipA], 0⟩ ⟨"Port not found"⟩ rfl

/-- The polls of a run, one poll unfolded. -/
theorem pollCalls_succ {σ : Type} (s : Client σ) (id : String) (st : σ) (n : Nat) :
    pollCalls s id st (n + 1)
      = Call.Get id (s.Get st id).1 :: pollCalls s id (s.Get st id).2 n := by
  unfold pollCalls
  rw [List.range_succ_eq_map]
  simp only [List.map_cons, List.map_map]
  rfl

/-- Every one of the first `n` polls is a `Get` request. -/
theorem pollCalls_countP_isGet {σ : Type} (s : Client σ) (id : String) (st : σ) (n : Nat) :
    (pollCalls s id st n).countP Call.isGet = n := by
  induction n generalizing st with
  | zero => rfl
  | succ n ih => rw [pollCalls_succ, List.countP_cons, ih]; rfl

/-- The polling closure on a successful fetch: one `Get` request, no error, and the
verdict whether the status is `"ACTIVE"`. -/
theorem associateCondition_ok {σ : Type} (s : Client σ) (id : String) (st : σ) (g : FloatingIP)
    (hg : (s.Get st id).1 = .ok g) :
    associateCondition s id st
      = ⟨(decide (g.Status = "ACTIVE"), none), (s.Get st id).2, [Call.Get id (s.Get st id).1]⟩ := by
  simp [associateCondition, hg]

/-- The polling closure on a failed fetch: one `Get` request, and the error of the fetch. -/
theorem associateCondition_error {σ : Type} (s : Client σ) (id : String) (st : σ)
    (e : RemoteError) (he : (s.Get st id).1 = .error e) :
    associateCondition s id st
      = ⟨(false, some (.remote e)), (s.Get st id).2, [Call.Get id (s.Get st id).1]⟩ := by
  simp [associateCondition, he]

/-- The wait stops at the first poll that is not a successful fetch of a floating IP
that is not yet active: with `m` such fetches first and attempts to spare, poll `m + 1`
ends the wait, with success when it fetches an active floating IP and with the error of
the fetch when the fetch fails. -/
theorem loop_stops {σ : Type} (s : Client σ) (id : String) (r : Option GoError) :
    ∀ (m steps : Nat) (st : σ), m < steps →
      (∀ k, k < m → ∃ g, poll s id st k = .ok g ∧ g.Status ≠ "ACTIVE") →
      ((∃ g, poll s id st m = .ok g ∧ g.Status = "ACTIVE" ∧ r = none)
        ∨ (∃ e, poll s id st m = .error e ∧ r = some (.remote e))) →
      ExponentialBackoffLoop (associateCondition s id) steps st
        = ⟨r, afterGets s id (m + 1) st, pollCalls s id st (m + 1)⟩ := by
  intro m
  induction m with
  | zero =>
    intro steps st hlt _ hstop
    obtain ⟨steps, rfl⟩ : ∃ n, steps = n + 1 := ⟨steps - 1, by omega⟩
    rw [pollCalls_succ]
    rcases hstop with ⟨g, hg, hact, rfl⟩ | ⟨e, he, rfl⟩
    · simp [ExponentialBackoffLoop, associateCondition_ok s id st g hg, hact, afterGets,
        pollCalls]
    · simp [ExponentialBackoffLoop, associateCondition_error s id st e he, afterGets,
        pollCalls]
  | succ m ih =>
    intro steps st hlt hdown hstop
    obtain ⟨steps, rfl⟩ : ∃ n, steps = n + 1 := ⟨steps - 1, by omega⟩
    obtain ⟨g, hg, hna⟩ := hdown 0 (by omega)
    have hrec := ih steps (s.Get st id).2 (by omega)
      (fun k hk => hdown (k + 1) (by omega)) hstop
    rw [pollCalls_succ]
    simp [ExponentialBackoffLoop, associateCondition_ok s id st g hg, hna, hrec, afterGets]

/-- The wait gives up after `steps` polls when each of them fetches a floating IP that
is not active. -/
theorem loop_exhausts {σ : Type} (s : Client σ) (id : String) :
    ∀ (steps : Nat) (st : σ),
      (∀ k, k < steps → ∃ g, poll s id st k = .ok g ∧ g.Status ≠ "ACTIVE") →
      ExponentialBackoffLoop (associateCondition s id) steps st
        = ⟨some .ErrWaitTimeout, afterGets s id steps st, pollCalls s id st steps⟩ := by
  intro steps
  induction steps with
  | zero => intro st _; rfl
  | succ n ih =>
    intro st hdown
    obtain ⟨g, hg, hna⟩ := hdown 0 (by omega)
    have hrec := ih (s.Get st id).2 (fun k hk => hdown (k + 1) (by omega))
    rw [pollCalls_succ]
    simp [ExponentialBackoffLoop, associateCondition_ok s id st g hg, hna, hrec, afterGets]

/-- After a successful `Update` answering `fp1`, `AssociateFloatingIP` logs, then waits
on `fp1.ID` with the ten attempts of `backoff`. -/
theorem associate_after_update {σ : Type} (s : Client σ) (fp : FloatingIP) (portID : String)
    (st st1 : σ) (fp1 : FloatingIP)
    (hUpdate : s.Update st fp.ID { PortID := some portID } = (.ok fp1, st1)) :
    AssociateFloatingIP s fp portID st
      = ⟨(ExponentialBackoffLoop (associateCondition s fp1.ID) 10 st1).ret,
         (ExponentialBackoffLoop (associateCondition s fp1.ID) 10 st1).remote,
         [Call.Info "Associating floating IP" ["IP", fp.FloatingIP],
          Call.Update fp.ID { PortID := some portID } (.ok fp1),
          Call.Info "Waiting for floatingIP" ["id", fp1.ID, "targetStatus", "ACTIVE"]]
          ++ (ExponentialBackoffLoop (associateCondition s fp1.ID) 10 st1).calls⟩ := by
  simp [AssociateFloatingIP, hUpdate, ExponentialBackoff, backoff]

/-- Claim C5: let `1 ≤ N ≤ 10`, let the `Update` request succeed with `fp1`, and let the
polls of `fp1.ID` that follow succeed, with a status other than `"ACTIVE"` on polls
`1 .. N-1` and the status `"ACTIVE"` on poll `N`. Then `AssociateFloatingIP` returns
success, and after the update and its two log lines its interactions are exactly those
`N` polls: `N` `Get` requests, none after poll `N`. -/
theorem associate_converges_after_N_polls {σ : Type} (s : Client σ) (fp : FloatingIP)
    (portID : String) (st st1 : σ) (fp1 : FloatingIP) (N : Nat)
    (hN1 : 1 ≤ N) (hN10 : N ≤ 10)
    (hUpdate : s.Update st fp.ID { PortID := some portID } = (.ok fp1, st1))
    (hDown : ∀ k, k + 1 < N → ∃ g, poll s fp1.ID st1 k = .ok g ∧ g.Status ≠ "ACTIVE")
    (hActive : ∃ g, poll s fp1.ID st1 (N - 1) = .ok g ∧ g.Status = "ACTIVE") :
    (AssociateFloatingIP s fp portID st).ret = none
    ∧ (AssociateFloatingIP s fp portID st).calls
      = [Call.Info "Associating floating IP" ["IP", fp.FloatingIP],
         Call.Update fp.ID { PortID := some portID } (.ok fp1),
         Call.Info "Waiting for floatingIP" ["id", fp1.ID, "targetStatus", "ACTIVE"]]
        ++ pollCalls s fp1.ID st1 N
    ∧ (AssociateFloatingIP s fp portID st).calls.countP Call.isGet = N
    ∧ (AssociateFloatingIP s fp portID st).remote = afterGets s fp1.ID N st1 := by
  obtain ⟨m, rfl⟩ : ∃ m, N = m + 1 := ⟨N - 1, by omega⟩
  obtain ⟨g, hg, hact⟩ := hActive
  have hloop := loop_stops s fp1.ID none m 10 st1 (by omega)
    (fun k hk => hDown k (by omega)) (Or.inl ⟨g, hg, hact, rfl⟩)
  rw [associate_after_update s fp portID st st1 fp1 hUpdate, hloop]
  refine ⟨rfl, rfl, ?_, rfl⟩
  simp [List.countP_cons, Call.isGet, pollCalls_countP_isGet]

/-- Witness of C5 with `N = 3`: the test double answers `DOWN`, `DOWN`, `ACTIVE`. -/
theorem associate_converges_after_N_polls_witness :
    (AssociateFloatingIP (fakeClient (okScript 2)) fipA "port-1" ⟨[fipA], 0⟩).ret = none
    ∧ (AssociateFloatingIP (fakeClient (okScript 2)) fipA "port-1" ⟨[fipA], 0⟩).calls.countP
        Call.isGet = 3
    ∧ (AssociateFloatingIP (fakeClient (okScript 2)) fipA "port-1" ⟨[fipA], 0⟩).remote
      = ⟨[fipA], 3⟩ :=
  have h := associate_converges_after_N_polls (fakeClient (okScript 2)) fipA "port-1"
    ⟨[fipA], 0⟩ ⟨[fipA], 0⟩ { fipA with PortID := "port-1" } 3 (by decide) (by decide) rfl
    (fun k hk => by
      have hk2 : k = 0 ∨ k = 1 := by omega
      rcases hk2 with rfl | rfl
      · exact ⟨_, rfl, by decide⟩
      · exact ⟨_, rfl, by decide⟩)
    ⟨_, rfl, by decide⟩
  ⟨h.1, h.2.2.1, h.2.2.2⟩

/-- Claim C6: let the `Update` request succeed with `fp1` and let each of the ten polls
of `fp1.ID` that follow succeed with a status other than `"ACTIVE"`. Then
`AssociateFloatingIP` stops after exactly ten `Get` requests and returns
`wait.ErrWaitTimeout`, which is neither an error of a remote call nor a wrapped one. -/
theorem associate_times_out_after_ten_polls {σ : Type} (s : Client σ) (fp : FloatingIP)
    (portID : String) (st st1 : σ) (fp1 : FloatingIP)
    (hUpdate : s.Update st fp.ID { PortID := some portID } = (.ok fp1, st1))
    (hDown : ∀ k, k < 10 → ∃ g, poll s fp1.ID st1 k = .ok g ∧ g.Status ≠ "ACTIVE") :
    (AssociateFloatingIP s fp portID st).ret = some .ErrWaitTimeout
    ∧ (AssociateFloatingIP s fp portID st).calls
      = [Call.Info "Associating floating IP" ["IP", fp.FloatingIP],
         Call.Update fp.ID { PortID := some portID } (.ok fp1),
         Call.Info "Waiting for floatingIP" ["id", fp1.ID, "targetStatus", "ACTIVE"]]
        ++ pollCalls s fp1.ID st1 10
    ∧ (AssociateFloatingIP s fp portID st).calls.countP Call.isGet = 10
    ∧ (∀ e, (AssociateFloatingIP s fp portID st).ret ≠ some (.remote e))
    ∧ (∀ text, (AssociateFloatingIP s fp portID st).ret ≠ some (.errorf text)) := by
  have hloop := loop_exhausts s fp1.ID 10 st1 hDown
  rw [associate_after_update s fp portID st st1 fp1 hUpdate, hloop]
  refine ⟨rfl, rfl, ?_, ?_, ?_⟩
  · simp [List.countP_cons, Call.isGet, pollCalls_countP_isGet]
  · intro e h
    cases h
  · intro text h
    cases h

/-- Witness of C6: the test double answers `DOWN` to every `Get`. -/
theorem associate_times_out_after_ten_polls_witness :
    (AssociateFloatingIP (fakeClient downScript) fipA "port-1" ⟨[fipA], 0⟩).ret
      = some .ErrWaitTimeout
    ∧ (AssociateFloatingIP (fakeClient downScript) fipA "port-1" ⟨[fipA], 0⟩).calls.countP
        Call.isGet = 10 :=
  have h := associate_times_out_after_ten_polls (fakeClient downScript) fipA "port-1"
    ⟨[fipA], 0⟩ ⟨[fipA], 0⟩ { fipA with PortID := "port-1" } rfl
    (fun _ _ => ⟨_, rfl, by decide⟩)
  ⟨h.1, h.2.2.1⟩

/-- Claim C7: let `1 ≤ k ≤ 10`, let the `Update` request succeed with `fp1`, let polls
`1 .. k-1` of `fp1.ID` succeed with a status other than `"ACTIVE"` and let poll `k` fail
with `e`. Then `AssociateFloatingIP` returns `e` itself, not wrapped and not the timeout
error, after exactly `k` `Get` requests. -/
theorem associate_returns_fetch_error {σ : Type} (s : Client σ) (fp : FloatingIP)
    (portID : String) (st st1 : σ) (fp1 : FloatingIP) (k : Nat) (e : RemoteError)
    (hk1 : 1 ≤ k) (hk10 : k ≤ 10)
    (hUpdate : s.Update st fp.ID { PortID := some portID } = (.ok fp1, st1))
    (hDown : ∀ j, j + 1 < k → ∃ g, poll s fp1.ID st1 j = .ok g ∧ g.Status ≠ "ACTIVE")
    (hFail : poll s fp1.ID st1 (k - 1) = .error e) :
    (AssociateFloatingIP s fp portID st).ret = some (.remote e)
    ∧ (AssociateFloatingIP s fp portID st).ret ≠ some .ErrWaitTimeout
    ∧ (AssociateFloatingIP s fp portID st).calls
      = [Call.Info "Associating floating IP" ["IP", fp.FloatingIP],
         Call.Update fp.ID { PortID := some portID } (.ok fp1),
         Call.Info "Waiting for floatingIP" ["id", fp1.ID, "targetStatus", "ACTIVE"]]
        ++ pollCalls s fp1.ID st1 k
    ∧ (AssociateFloatingIP s fp portID st).calls.countP Call.isGet = k := by
  obtain ⟨m, rfl⟩ : ∃ m, k = m + 1 := ⟨k - 1, by omega⟩
  have hloop := loop_stops s fp1.ID (some (.remote e)) m 10 st1 (by omega)
    (fun j hj => hDown j (by omega)) (Or.inr ⟨e, hFail, rfl⟩)
  rw [associate_after_update s fp portID st st1 fp1 hUpdate, hloop]
  refine ⟨rfl, ?_, rfl, ?_⟩
  · intro h
    cases h
  · simp [List.countP_cons, Call.isGet, pollCalls_countP_isGet]

/-- Witness of C7 with `k = 3`: the third `Get` of the test double fails. -/
theorem associate_returns_fetch_error_witness :
    (AssociateFloatingIP (fakeClient (getFailsScript 2)) fipA "port-1" ⟨[fipA], 0⟩).ret
      = some (.remote ⟨"connection reset"⟩)
    ∧ (AssociateFloatingIP (fakeClient (getFailsScript 2)) fipA "port-1" ⟨[fipA], 0⟩).calls.countP
        Call.isGet = 3 :=
  have h := associate_returns_fetch_error (fakeClient (getFailsScript 2)) fipA "port-1"
    ⟨[fipA], 0⟩ ⟨[fipA], 0⟩ { fipA with PortID := "port-1" } 3 ⟨"connection reset"⟩
    (by decide) (by decide) rfl
    (fun j hj => by
      have hj2 : j = 0 ∨ j = 1 := by omega
      rcases hj2 with rfl | rfl
      · exact ⟨_, rfl, by decide⟩
      · exact ⟨_, rfl, by decide⟩)
    rfl
  ⟨h.1, h.2.2.2⟩

end Networking
